import Mathlib

/-!
Shallow embedding of the dex service (src/jup/index.js): the Jupiter metadata
client, the `/wallet-tokens` balance-aggregation join, the `/jupswap` swap
orchestration, and the `/validate-key` key validator, together with theorems
settling the specification claims.

JavaScript numbers that the claims compare for order are modelled as `Rat`;
raw integer balances as `Nat`; optional JSON keys as `Option`; thrown
exceptions as `Except` or `Option` results.
-/

/-! ## Base58 decoding (bs58 library used by the service) -/

/-- The Bitcoin base58 alphabet used by the `bs58` package. -/
def base58Alphabet : String :=
  "123456789ABCDEFGHJKLMNPQRSTUVWXYZabcdefghijkmnopqrstuvwxyz"

/-- Index of a character in the base58 alphabet; `none` for a non-base58
character. -/
def b58Digit (c : Char) : Option Nat :=
  base58Alphabet.toList.findIdx? (· = c)

/-- Fuel-indexed big-endian byte expansion; `fuel ≥ n` always suffices
since `n / 256 < n` for positive `n`. -/
def natToBytesBEAux : Nat → Nat → List Nat
  | 0, _ => []
  | fuel + 1, n => if n = 0 then [] else natToBytesBEAux fuel (n / 256) ++ [n % 256]

/-- Big-endian minimal byte representation of a natural number (empty for 0),
as produced by the base58 big-number decode loop. -/
def natToBytesBE (n : Nat) : List Nat :=
  natToBytesBEAux n n

/-- `bs58.decode`: rejects any character outside the alphabet; each leading
`1` contributes one leading zero byte; the rest is big-number base-58. -/
def bs58Decode (s : String) : Option (List Nat) :=
  match s.toList.mapM b58Digit with
  | none => none
  | some ds =>
    let zeros := (ds.takeWhile (· = 0)).length
    let v := (ds.dropWhile (· = 0)).foldl (fun a d => a * 58 + d) 0
    some (List.replicate zeros 0 ++ natToBytesBE v)

/-! ## Metadata client: `getTokenMetadataFromJupiterV2` -/

/-- One record of the upstream Jupiter v2/search response body. `icon` and
`usdPrice` keys may be absent. -/
structure JupiterRawToken where
  id : String
  symbol : String
  name : String
  decimals : Nat
  icon : Option String
  usdPrice : Option Rat
deriving DecidableEq, Repr

/-- A record returned by the metadata client: the mapping the client applies
to each upstream token (`verified` is hardcoded `true`; no `tags` key). -/
structure TokenMetadataRec where
  address : String
  symbol : String
  name : String
  decimals : Nat
  logoURI : Option String
  usdPrice : Option Rat
  verified : Bool
deriving DecidableEq, Repr

/-- The per-token mapping in the client's success path:
`{address: token.id, symbol, name, decimals, logoURI: token.icon, usdPrice,
verified: true}`. -/
def jupMapRaw (data : List JupiterRawToken) : List TokenMetadataRec :=
  data.map fun t =>
    { address := t.id, symbol := t.symbol, name := t.name,
      decimals := t.decimals, logoURI := t.icon, usdPrice := t.usdPrice,
      verified := true }

/-- Outcome of the single axios GET the client performs: either the parsed
response body, or a failure carrying what axios exposes on the error object
(`error.config?.url`, `error.response?.status`, `error.response?.data`,
`error.message`). -/
inductive UpstreamOutcome where
  | ok (data : List JupiterRawToken)
  | fail (url : Option String) (status : Option Nat) (body : Option String)
      (message : String)
deriving DecidableEq, Repr

/-- What the client writes to `console.error` on failure. -/
structure JupLog where
  url : Option String
  status : Option Nat
  data : Option String
deriving DecidableEq, Repr

/-- The `Error` value the client throws: a plain message string. -/
structure RaisedError where
  message : String
deriving DecidableEq, Repr

/-- `getTokenMetadataFromJupiterV2`: on success maps the body through
`jupMapRaw` (with `response.data || []` for a missing body folded into
`.ok []`); on failure logs `{url, status, data}` and throws
`new Error("Jupiter API 请求失败: " + error.message)`. The first component of
the result is the list of console-error log entries emitted. -/
def getTokenMetadataFromJupiterV2 (outcome : UpstreamOutcome) :
    List JupLog × Except RaisedError (List TokenMetadataRec) :=
  match outcome with
  | .ok data => ([], .ok (jupMapRaw data))
  | .fail url status body msg =>
    ([{ url := url, status := status, data := body }],
      .error { message := "Jupiter API 请求失败: " ++ msg })

/-! ## Wallet report: `/wallet-tokens` core (post address-validation) -/

/-- The `tokenAmount` object of a parsed SPL token account. `amount` is the
raw integer balance (a digit string in the RPC response, converted with
`Number(...)` by the handler), `uiAmount` the human-readable number. -/
structure TokenAmount where
  amount : Nat
  decimals : Nat
  uiAmount : Rat
deriving DecidableEq, Repr

/-- `account.account.data.parsed.info` of one token account. -/
structure ParsedAccountInfo where
  mint : String
  tokenAmount : TokenAmount
deriving DecidableEq, Repr

/-- One element of `tokenAccounts.value`. -/
structure TokenAccount where
  pubkey : String
  info : ParsedAccountInfo
deriving DecidableEq, Repr

/-- Ledger state the handler reads over RPC: native balance in lamports and
the owner's parsed SPL token accounts. -/
structure WalletRpcState where
  solBalance : Nat
  tokenAccounts : List TokenAccount
deriving DecidableEq, Repr

/-- Parameters of one `getTokenMetadataFromJupiterV2` call. -/
structure SearchParams where
  query : String
  exactMatch : Bool
  limit : Nat
deriving DecidableEq, Repr

/-- An entry of `tokenInfoMap`: built from a client record with
`verified: true`, `source: 'jupiter-v2'`, and `tags: token.tags || []`
(client records carry no `tags` key, so the tags are always `[]`). -/
structure TokenInfo where
  symbol : String
  name : String
  logoURI : Option String
  tags : List String
  verified : Bool
  source : String
  usdPrice : Option Rat
deriving DecidableEq, Repr

/-- `Map.get` on an insertion-ordered association list where later `set`s
overwrite earlier ones: the last binding for the key wins. -/
def mapGet (m : List (String × TokenInfo)) (k : String) : Option TokenInfo :=
  (m.reverse.find? fun p => p.1 = k).map (·.2)

/-- `tokenInfoMap` built by the handler's forEach of `Map.set` calls.
`Map.set` replaces an existing binding in place; appending and reading the
last binding in `mapGet` observes the same values. -/
def buildTokenInfoMap (metadata : List TokenMetadataRec) :
    List (String × TokenInfo) :=
  metadata.foldl
    (fun m token =>
      m ++ [(token.address,
        { symbol := token.symbol, name := token.name,
          logoURI := token.logoURI, tags := [], verified := true,
          source := "jupiter-v2", usdPrice := token.usdPrice })])
    []

/-- One entry of the response `tokens` array. Optional JSON keys
(`logoURI`, `tags`, `usdPrice`, `error`) are `Option`s, `none` meaning the
key is absent. -/
structure OutToken where
  mint : String
  symbol : String
  name : String
  balance : Nat
  decimals : Nat
  uiAmount : Rat
  isNative : Bool
  tokenAccount : String
  verified : Bool
  source : String
  logoURI : Option String
  tags : Option (List String)
  usdPrice : Option Rat
  error : Option String
deriving DecidableEq, Repr

/-- JavaScript truthiness of an optional number (`undefined` and `0` are
falsy). -/
def numTruthy : Option Rat → Bool
  | none => false
  | some p => p ≠ 0

/-- JavaScript truthiness of an optional string (`undefined` and `""` are
falsy). -/
def strTruthy : Option String → Bool
  | none => false
  | some s => s ≠ ""

/-- `LAMPORTS_PER_SOL`. -/
def lamportsPerSol : Nat := 1000000000

/-- `solBalance / LAMPORTS_PER_SOL` as an exact rational
(`Rat.divInt`, equal to `(solBalance : Rat) / (lamportsPerSol : Rat)`). -/
def solToUi (solBalance : Nat) : Rat :=
  Rat.divInt solBalance lamportsPerSol

/-- The fixed native-asset entry pushed when `solBalanceInSOL > 0`. -/
def nativeToken (solBalance : Nat) (address : String) : OutToken :=
  { mint := "So11111111111111111111111111111111111111112",
    symbol := "SOL", name := "Solana",
    balance := solBalance, decimals := 9,
    uiAmount := solToUi solBalance,
    isNative := true, tokenAccount := address,
    logoURI := some "https://raw.githubusercontent.com/solana-labs/token-list/main/assets/mainnet/So11111111111111111111111111111111111111112/logo.png",
    verified := true, source := "native",
    tags := none, usdPrice := none, error := none }

/-- The fallback entry pushed by the catch block of the SPL loop. -/
def fallbackToken (acc : TokenAccount) : OutToken :=
  { mint := acc.info.mint, symbol := "UNKNOWN", name := "Unknown Token",
    balance := acc.info.tokenAmount.amount,
    decimals := acc.info.tokenAmount.decimals,
    uiAmount := acc.info.tokenAmount.uiAmount,
    isNative := false, tokenAccount := acc.pubkey,
    verified := false, source := "fallback",
    logoURI := none, tags := none, usdPrice := none,
    error := some "Metadata fetch failed" }

/-- Body of the SPL-token forEach for one account: `none` means nothing is
pushed. When the mint is missing from `tokenInfoMap`, `tokenInfo` stays
`undefined` and `tokenInfo.symbol` throws a TypeError, so the catch block
pushes the fallback entry. When the mint is present, the entry is pushed only
if `tokenData.usdPrice` is truthy. -/
def processSplAccount (infoMap : List (String × TokenInfo))
    (includeLogo includeTags : Bool) (acc : TokenAccount) : Option OutToken :=
  if 0 < acc.info.tokenAmount.uiAmount then
    match mapGet infoMap acc.info.mint with
    | none => some (fallbackToken acc)
    | some info =>
      let tokenData : OutToken :=
        { mint := acc.info.mint, symbol := info.symbol, name := info.name,
          balance := acc.info.tokenAmount.amount,
          decimals := acc.info.tokenAmount.decimals,
          uiAmount := acc.info.tokenAmount.uiAmount,
          isNative := false, tokenAccount := acc.pubkey,
          verified := info.verified, source := info.source,
          logoURI :=
            if includeLogo ∧ strTruthy info.logoURI then info.logoURI
            else none,
          tags := if includeTags then some info.tags else none,
          usdPrice := info.usdPrice, error := none }
      if numTruthy tokenData.usdPrice then some tokenData else none
  else none

/-- The mint array built by the first forEach: one entry per
positive-balance token account, in account order, duplicates kept. -/
def collectMints (accounts : List TokenAccount) : List String :=
  (accounts.filter fun a => 0 < a.info.tokenAmount.uiAmount).map
    fun a => a.info.mint

/-- The JSON body of a successful `/wallet-tokens` response (the fields the
claims are about). -/
structure WalletReport where
  wallet : String
  totalTokens : Nat
  tokens : List OutToken
  solBalanceUi : Rat
  splTokensCount : Nat
  verifiedTokensCount : Nat
  unverifiedTokensCount : Nat
  totalMintsQueried : Nat
  successfulMetadataQueries : Nat
deriving DecidableEq, Repr

/-- The `/wallet-tokens` success path after address validation. `service`
models the Jupiter search upstream (its parsed response body for given
parameters); the handler applies the client's success mapping `jupMapRaw` to
it. The first component of the result is the list of metadata queries
issued. -/
def walletTokensHandler (st : WalletRpcState) (address : String)
    (includeLogo includeTags : Bool)
    (service : SearchParams → List JupiterRawToken) :
    List SearchParams × WalletReport :=
  let mintAddresses := collectMints st.tokenAccounts
  let queries : List SearchParams :=
    if 0 < mintAddresses.length then
      [{ query := String.intercalate "," mintAddresses, exactMatch := true,
         limit := mintAddresses.length }]
    else []
  let tokenMetadata : List TokenMetadataRec :=
    match queries with
    | [] => []
    | q :: _ => jupMapRaw (service q)
  let infoMap := buildTokenInfoMap tokenMetadata
  let solBalanceInSOL : Rat := solToUi st.solBalance
  let nativeTokens : List OutToken :=
    if 0 < solBalanceInSOL then [nativeToken st.solBalance address] else []
  let splTokens : List OutToken :=
    st.tokenAccounts.filterMap (processSplAccount infoMap includeLogo includeTags)
  let tokens := nativeTokens ++ splTokens
  (queries,
    { wallet := address,
      totalTokens := tokens.length,
      tokens := tokens,
      solBalanceUi := solBalanceInSOL,
      splTokensCount := (tokens.filter fun t => !t.isNative).length,
      verifiedTokensCount := (tokens.filter fun t => t.verified).length,
      unverifiedTokensCount := (tokens.filter fun t => !t.verified).length,
      totalMintsQueried := mintAddresses.length,
      successfulMetadataQueries := tokenMetadata.length })

/-! ## Swap orchestration: `POST /jupswap` -/

/-- The fields of a quote the handler reads. `outAmount` and
`priceImpactPct` are passed through opaquely from the quote service to the
response, so they are modelled as strings. -/
structure Quote where
  outAmount : String
  priceImpactPct : String
deriving DecidableEq, Repr

/-- A `/jupswap` request body. Each field is an optional string; `none`
models an absent key (`undefined`). -/
structure SwapBody where
  inputMint : Option String
  inputAmount : Option String
  outputMint : Option String
  rpcUrl : Option String
  signer : Option String
deriving DecidableEq, Repr

/-- The default RPC URL the destructuring gives `rpcUrl` when the key is
absent. -/
def defaultRpcUrl : String := "https://api.mainnet-beta.solana.com"

/-- One outbound network call made by the swap handler, with its
arguments. -/
inductive NetCall where
  | quoteCall (inputMint outputMint : String) (amount : Rat)
      (slippageBps : Nat)
  | swapBuildCall (q : Quote) (userPublicKey : String)
  | sendTxCall (signedTx : String)
  | confirmCall (signature : String)
deriving DecidableEq, Repr

/-- The JSON body of a successful `/jupswap` response. -/
structure SwapSuccessBody where
  swapSignature : String
  outAmount : String
  inputAmount : Rat
  inputMint : String
  outputMint : String
  priceImpactPct : String
deriving DecidableEq, Repr

/-- A `/jupswap` response: 400 with an error message, 500 from the outer
catch, or the 200 success body. -/
inductive SwapResponse where
  | badRequest (error : String)
  | serverError (error : String)
  | success (body : SwapSuccessBody)
deriving DecidableEq, Repr

/-- Behaviours of the swap handler's collaborators. `fromSecret` models the
public-key derivation inside `Keypair.fromSecretKey` after its 64-byte size
check (`none` = it throws); `deserializeTx` models
`VersionedTransaction.deserialize`; `signTx` the signing step; the `Except`
results model thrown upstream errors with their messages. -/
structure SwapCollabs where
  fromSecret : List Nat → Option String
  quote : String → String → Rat → Nat → Except String Quote
  build : Quote → String → Except String String
  deserializeTx : String → Except String String
  signTx : String → List Nat → String
  send : String → Except String String
  confirmTx : String → Except String Unit
deriving Inhabited

/-- Number conversion applied to `inputAmount`: models JavaScript
`Number(...)` on the decimal-literal strings this API receives (optional
sign, integer and/or fractional digits); `none` is `NaN`. An empty or
all-space string converts to `0` as in JavaScript. -/
def jsNumber (s : String) : Option Rat :=
  let cs := ((s.toList.dropWhile (· = ' ')).reverse.dropWhile (· = ' ')).reverse
  match cs with
  | [] => some 0
  | _ =>
    let signed : Int × List Char :=
      match cs with
      | '-' :: r => (-1, r)
      | '+' :: r => (1, r)
      | r => (1, r)
    let digitsVal : List Char → Option Nat := fun ds =>
      if ds.all Char.isDigit ∧ ds ≠ [] then
        some (ds.foldl (fun a c => a * 10 + (c.toNat - 48)) 0)
      else none
    match (signed.2.span fun c => c ≠ '.') with
    | (ip, []) => (digitsVal ip).map fun n => Rat.divInt (signed.1 * n) 1
    | (ip, _dot :: fp) =>
      if fp.contains '.' ∨ (ip = [] ∧ fp = []) then none
      else
        match (if ip = [] then some 0 else digitsVal ip),
            (if fp = [] then some 0 else digitsVal fp) with
        | some i, some f =>
          some (Rat.divInt (signed.1 * (i * 10 ^ fp.length + f))
            ((10 : Int) ^ fp.length))
        | _, _ => none

/-- `signerKeypair` derivation: `bs58.default.decode` then
`Keypair.fromSecretKey`, which throws unless the secret is exactly 64
bytes. The result is the keypair's public key string. -/
def decodeSigner (c : SwapCollabs) (signer : String) : Option String :=
  (bs58Decode signer).bind fun bytes =>
    if bytes.length = 64 then c.fromSecret bytes else none

/-- The `POST /jupswap` handler. Returns the outbound network calls made, in
order (a call that throws is still recorded: it was issued), and the
response. Steps mirror the source: required-field truthiness check (with the
destructuring default for `rpcUrl`), `Number` validation of `inputAmount`,
signer decoding, then quote (slippage fixed at 100 bps) → swap build →
deserialize → sign → send → confirm, any thrown step reaching the outer
catch as a 500. -/
def jupswapHandler (c : SwapCollabs) (body : SwapBody) :
    List NetCall × SwapResponse :=
  let rpcUrl := match body.rpcUrl with
    | none => defaultRpcUrl
    | some s => s
  match body.inputMint, body.inputAmount, body.outputMint, body.signer with
  | some im, some ia, some om, some sg =>
    if im = "" ∨ ia = "" ∨ om = "" ∨ rpcUrl = "" ∨ sg = "" then
      ([], .badRequest "Missing required parameters")
    else
      match jsNumber ia with
      | none => ([], .badRequest "Invalid inputAmount: must be a positive number")
      | some amount =>
        if amount ≤ 0 then
          ([], .badRequest "Invalid inputAmount: must be a positive number")
        else
          match decodeSigner c sg with
          | none => ([], .badRequest "Invalid signer private key format")
          | some pubKey =>
            match c.quote im om amount 100 with
            | .error e => ([.quoteCall im om amount 100], .serverError e)
            | .ok q =>
              match c.build q pubKey with
              | .error e =>
                ([.quoteCall im om amount 100, .swapBuildCall q pubKey],
                  .serverError e)
              | .ok swapTxB64 =>
                match c.deserializeTx swapTxB64 with
                | .error e =>
                  ([.quoteCall im om amount 100, .swapBuildCall q pubKey],
                    .serverError e)
                | .ok tx =>
                  let signedTx := c.signTx tx
                    ((bs58Decode sg).getD [])
                  match c.send signedTx with
                  | .error e =>
                    ([.quoteCall im om amount 100, .swapBuildCall q pubKey,
                      .sendTxCall signedTx], .serverError e)
                  | .ok sig =>
                    match c.confirmTx sig with
                    | .error e =>
                      ([.quoteCall im om amount 100, .swapBuildCall q pubKey,
                        .sendTxCall signedTx, .confirmCall sig],
                        .serverError e)
                    | .ok _ =>
                      ([.quoteCall im om amount 100, .swapBuildCall q pubKey,
                        .sendTxCall signedTx, .confirmCall sig],
                        .success
                          { swapSignature := sig, outAmount := q.outAmount,
                            inputAmount := amount, inputMint := im,
                            outputMint := om,
                            priceImpactPct := q.priceImpactPct })
  | _, _, _, _ => ([], .badRequest "Missing required parameters")

/-! ## Key validation: `GET /validate-key` -/

/-- The `{success, message, publicKey}` body of a `/validate-key`
response. -/
structure ValidateKeyBody where
  success : Bool
  message : String
  publicKey : String
deriving DecidableEq, Repr

/-- The `GET /validate-key` handler: HTTP status and response body.
`fromSecret` models the public-key derivation of `Keypair.fromSecretKey` on
a 64-byte secret (`none` = it throws). The missing-parameter check, the
base58 decode, and the explicit 64-byte length check each return 400 with
`success: false` and the initial empty `publicKey`. -/
def validateKeyHandler (fromSecret : List Nat → Option String)
    (privateKey : Option String) : Nat × ValidateKeyBody :=
  match privateKey with
  | none =>
    (400, { success := false, message := "缺少必要参数: privateKey", publicKey := "" })
  | some pk =>
    if pk = "" then
      (400, { success := false, message := "缺少必要参数: privateKey", publicKey := "" })
    else
      match bs58Decode pk with
      | none =>
        (400, { success := false, message := "私钥格式无效：并非正确的Base58编码",
                publicKey := "" })
      | some secretKeyBytes =>
        if secretKeyBytes.length ≠ 64 then
          (400, { success := false,
                  message := "私钥长度无效。期望64字节，实际得到" ++
                    toString secretKeyBytes.length ++ "字节",
                  publicKey := "" })
        else
          match fromSecret secretKeyBytes with
          | some publicKey =>
            (200, { success := true, message := "私钥验证成功，公钥已生成",
                    publicKey := publicKey })
          | none =>
            (400, { success := false,
                    message := "私钥无效：无法生成有效的密钥对。请检查私钥内容是否正确。",
                    publicKey := "" })

/-! ## Concrete inputs used to instantiate the theorems -/

/-- A base58 string of 64 `1` characters: decodes to 64 zero bytes. -/
def signer64 : String := String.mk (List.replicate 64 '1')

/-- A positive-balance token account for mint `m`. -/
def acctM : TokenAccount :=
  { pubkey := "acc1",
    info := { mint := "m",
              tokenAmount := { amount := 5, decimals := 2, uiAmount := 1 } } }

/-- A second positive-balance account for the same mint `m`. -/
def acctM2 : TokenAccount :=
  { pubkey := "acc2",
    info := { mint := "m",
              tokenAmount := { amount := 7, decimals := 2, uiAmount := 2 } } }

/-- A positive-balance account for a different mint `m2`. -/
def acctN : TokenAccount :=
  { pubkey := "acc3",
    info := { mint := "m2",
              tokenAmount := { amount := 3, decimals := 0, uiAmount := 3 } } }

/-- A zero-balance token account. -/
def acctZero : TokenAccount :=
  { pubkey := "acc0",
    info := { mint := "mz",
              tokenAmount := { amount := 0, decimals := 2, uiAmount := 0 } } }

/-- Wallet with no SOL and one positive holding of mint `m`. -/
def stOneHolding : WalletRpcState := { solBalance := 0, tokenAccounts := [acctM] }

/-- Wallet with two positive-balance accounts of the same mint `m`. -/
def stDupMints : WalletRpcState :=
  { solBalance := 0, tokenAccounts := [acctM, acctM2] }

/-- Wallet with two positive-balance accounts of distinct mints. -/
def stTwoMints : WalletRpcState :=
  { solBalance := 0, tokenAccounts := [acctM, acctN] }

/-- Wallet with 2 SOL and no token accounts. -/
def stSolOnly : WalletRpcState :=
  { solBalance := 2000000000, tokenAccounts := [] }

/-- Wallet with no SOL and only a zero-balance token account. -/
def stNoPositive : WalletRpcState :=
  { solBalance := 0, tokenAccounts := [acctZero] }

/-- One upstream metadata record. -/
def rawTokA : JupiterRawToken :=
  { id := "a", symbol := "S", name := "N", decimals := 6,
    icon := some "https://icon", usdPrice := some 2 }

/-- Collaborators for which every upstream step of a swap succeeds. -/
def happyCollabs : SwapCollabs :=
  { fromSecret := fun _ => some "PK",
    quote := fun _ _ _ _ => .ok { outAmount := "42", priceImpactPct := "0.1" },
    build := fun _ _ => .ok "b64",
    deserializeTx := fun _ => .ok "tx",
    signTx := fun t _ => t,
    send := fun _ => .ok "SIG",
    confirmTx := fun _ => .ok () }

/-- A swap body whose `rpcUrl` key is absent, all other fields valid. -/
def bodyNoRpc : SwapBody :=
  { inputMint := some "A", inputAmount := some "1", outputMint := some "B",
    rpcUrl := none, signer := some signer64 }

/-- A swap body whose `inputMint` key is absent. -/
def bodyNoInputMint : SwapBody :=
  { inputMint := none, inputAmount := some "1", outputMint := some "B",
    rpcUrl := some "https://rpc", signer := some signer64 }

/-- A fully populated, valid swap body. -/
def bodyFull : SwapBody :=
  { inputMint := some "A", inputAmount := some "1", outputMint := some "B",
    rpcUrl := some "https://rpc", signer := some signer64 }

/-- A swap body whose signer is not valid base58. -/
def bodyBadSigner : SwapBody :=
  { inputMint := some "A", inputAmount := some "1", outputMint := some "B",
    rpcUrl := some "https://rpc", signer := some "0" }

/-! ## Helper lemmas -/

/-- A boolean predicate splits a list's length between the filter and its
complement. -/
theorem length_filter_add_length_filter_neg {α : Type} (l : List α)
    (p : α → Bool) :
    (l.filter p).length + (l.filter fun a => !p a).length = l.length :=
  (List.length_eq_length_filter_add p).symm

/-- Every entry the SPL-token loop pushes has `isNative = false`. -/
theorem processSplAccount_isNative_false (infoMap : List (String × TokenInfo))
    (il it : Bool) (acc : TokenAccount) (t : OutToken)
    (h : processSplAccount infoMap il it acc = some t) :
    t.isNative = false := by
  unfold processSplAccount at h
  split at h
  · cases hm : mapGet infoMap acc.info.mint with
    | none =>
      rw [hm] at h
      simp only [Option.some.injEq] at h
      subst h; rfl
    | some info =>
      rw [hm] at h
      dsimp only at h
      by_cases hp : numTruthy info.usdPrice = true
      · rw [if_pos hp] at h
        simp only [Option.some.injEq] at h
        subst h; rfl
      · rw [if_neg hp] at h
        exact absurd h (by simp)
  · exact absurd h (by simp)

/-- `buildTokenInfoMap` is the map of the per-record entry construction. -/
theorem buildTokenInfoMap_eq_map (md : List TokenMetadataRec) :
    buildTokenInfoMap md = md.map fun token =>
      (token.address,
        { symbol := token.symbol, name := token.name,
          logoURI := token.logoURI, tags := [], verified := true,
          source := "jupiter-v2", usdPrice := token.usdPrice }) := by
  have aux : ∀ (l : List TokenMetadataRec) (init : List (String × TokenInfo)),
      l.foldl (fun m token =>
        m ++ [(token.address,
          ({ symbol := token.symbol, name := token.name,
             logoURI := token.logoURI, tags := [], verified := true,
             source := "jupiter-v2", usdPrice := token.usdPrice } : TokenInfo))])
        init
      = init ++ l.map fun token =>
          (token.address,
            ({ symbol := token.symbol, name := token.name,
               logoURI := token.logoURI, tags := [], verified := true,
               source := "jupiter-v2", usdPrice := token.usdPrice } : TokenInfo)) := by
    intro l
    induction l with
    | nil => intro init; simp
    | cons hd tl ih => intro init; simp [ih]
  simpa using aux md []

/-- Every value `tokenInfoMap` can return is verified and sourced from
`jupiter-v2`. -/
theorem mapGet_buildTokenInfoMap (md : List TokenMetadataRec) (k : String)
    (info : TokenInfo) (h : mapGet (buildTokenInfoMap md) k = some info) :
    info.verified = true ∧ info.source = "jupiter-v2" := by
  unfold mapGet at h
  rcases Option.map_eq_some'.mp h with ⟨p, hfind, hp⟩
  have hmem : p ∈ (buildTokenInfoMap md).reverse := List.mem_of_find?_eq_some hfind
  rw [List.mem_reverse, buildTokenInfoMap_eq_map, List.mem_map] at hmem
  rcases hmem with ⟨tok, _, htok⟩
  subst hp
  rw [← htok]
  exact ⟨rfl, rfl⟩

/-- Classification of SPL-loop output when the lookup map comes from
`buildTokenInfoMap`: either the matched, verified `jupiter-v2` shape, or the
catch-block fallback shape. -/
theorem processSplAccount_classify (md : List TokenMetadataRec)
    (il it : Bool) (acc : TokenAccount) (t : OutToken)
    (h : processSplAccount (buildTokenInfoMap md) il it acc = some t) :
    (t.verified = true ∧ t.source = "jupiter-v2") ∨
    (t.verified = false ∧ t.source = "fallback" ∧ t.symbol = "UNKNOWN") := by
  unfold processSplAccount at h
  split at h
  · cases hm : mapGet (buildTokenInfoMap md) acc.info.mint with
    | none =>
      rw [hm] at h
      simp only [Option.some.injEq] at h
      subst h
      exact Or.inr ⟨rfl, rfl, rfl⟩
    | some info =>
      rw [hm] at h
      dsimp only at h
      by_cases hp : numTruthy info.usdPrice = true
      · rw [if_pos hp] at h
        simp only [Option.some.injEq] at h
        subst h
        rcases mapGet_buildTokenInfoMap md acc.info.mint info hm with ⟨hv, hs⟩
        exact Or.inl ⟨hv, hs⟩
      · rw [if_neg hp] at h
        exact absurd h (by simp)
  · exact absurd h (by simp)

/-- `solBalance / LAMPORTS_PER_SOL` is positive exactly when the lamport
balance is. -/
theorem solToUi_pos (n : Nat) : 0 < solToUi n ↔ 0 < n := by
  unfold solToUi lamportsPerSol
  rw [Rat.divInt_eq_div]
  constructor
  · intro h
    by_contra hn
    push_neg at hn
    interval_cases n
    simp at h
  · intro h
    apply div_pos
    · exact_mod_cast h
    · norm_num

/-! ## Claim theorems -/

/-- C3 counterexample: two upstream failures that differ in URL, status and
body but share a message produce the *same* raised error, so the raised
error cannot carry the failing URL, the HTTP status, or the response body;
it is exactly the prefixed message. -/
theorem c3_error_lacks_diagnostics_counterexample :
    (getTokenMetadataFromJupiterV2
        (.fail (some "https://u1") (some 500) (some "body1") "boom")).2 =
      (getTokenMetadataFromJupiterV2
        (.fail (some "https://u2") (some 404) (some "body2") "boom")).2 ∧
    (getTokenMetadataFromJupiterV2
        (.fail (some "https://u1") (some 500) (some "body1") "boom")).2 =
      .error { message := "Jupiter API 请求失败: boom" } := by
  constructor
  · rfl
  · rfl

/-- C3 (amended): on upstream failure the metadata client logs the failing
URL, status and body to the console and raises an error carrying only the
message "Jupiter API 请求失败: " ++ the underlying message; the raised error
is independent of URL, status and body. -/
theorem c3_upstream_failure_behavior (u1 u2 b1 b2 : Option String)
    (s1 s2 : Option Nat) (msg : String) :
    (getTokenMetadataFromJupiterV2 (.fail u1 s1 b1 msg)).1 =
      [{ url := u1, status := s1, data := b1 }] ∧
    (getTokenMetadataFromJupiterV2 (.fail u1 s1 b1 msg)).2 =
      .error { message := "Jupiter API 请求失败: " ++ msg } ∧
    (getTokenMetadataFromJupiterV2 (.fail u1 s1 b1 msg)).2 =
      (getTokenMetadataFromJupiterV2 (.fail u2 s2 b2 msg)).2 := by
  exact ⟨rfl, rfl, rfl⟩

/-- C4 counterexample: a wallet owning two positive-balance accounts of the
same mint issues the query "m,m" with limit 2, not the distinct-identifier
query "m" with limit 1. -/
theorem c4_duplicate_mints_counterexample :
    (walletTokensHandler stDupMints "w" true true fun _ => []).1 =
      [{ query := "m,m", exactMatch := true, limit := 2 }] ∧
    (collectMints stDupMints.tokenAccounts).dedup = ["m"] := by
  constructor
  · decide
  · decide

/-- C4 (amended): when at least one positive-balance holding exists, the
handler issues exactly one metadata query, joining the mints of all
positive-balance accounts (one entry per account, duplicates kept) with
commas, with exactMatch true and limit equal to the number of
positive-balance accounts; that count is also reported as
totalMintsQueried. -/
theorem c4_single_batched_query (st : WalletRpcState) (addr : String)
    (il it : Bool) (svc : SearchParams → List JupiterRawToken)
    (h : collectMints st.tokenAccounts ≠ []) :
    (walletTokensHandler st addr il it svc).1 =
      [{ query := String.intercalate "," (collectMints st.tokenAccounts),
         exactMatch := true,
         limit := (collectMints st.tokenAccounts).length }] ∧
    (walletTokensHandler st addr il it svc).2.totalMintsQueried =
      (collectMints st.tokenAccounts).length := by
  have hlen : 0 < (collectMints st.tokenAccounts).length :=
    List.length_pos.mpr h
  unfold walletTokensHandler
  simp only [if_pos hlen]
  exact ⟨trivial, trivial⟩

/-- C4 witness: a wallet with two distinct positive-balance mints issues the
single batched query "m,m2" with exactMatch and limit 2. -/
theorem c4_single_batched_query_witness :
    (walletTokensHandler stTwoMints "w" true true fun _ => []).1 =
      [{ query := "m,m2", exactMatch := true, limit := 2 }] := by
  have h := (c4_single_batched_query stTwoMints "w" true true
    (fun _ => []) (by decide)).1
  rw [h]
  decide

/-- C7: in every wallet report, totalTokens equals the length of the tokens
array, and the verified and unverified counts partition it. -/
theorem c7_summary_counts (st : WalletRpcState) (addr : String)
    (il it : Bool) (svc : SearchParams → List JupiterRawToken) :
    (walletTokensHandler st addr il it svc).2.totalTokens =
      (walletTokensHandler st addr il it svc).2.tokens.length ∧
    (walletTokensHandler st addr il it svc).2.verifiedTokensCount +
        (walletTokensHandler st addr il it svc).2.unverifiedTokensCount =
      (walletTokensHandler st addr il it svc).2.totalTokens := by
  unfold walletTokensHandler
  refine ⟨rfl, ?_⟩
  exact length_filter_add_length_filter_neg _ _

/-- C9: a wallet with no positive-balance SPL holding issues no metadata
query, and the report's totalMintsQueried and successfulMetadataQueries are
both 0. -/
theorem c9_no_positive_no_query (st : WalletRpcState) (addr : String)
    (il it : Bool) (svc : SearchParams → List JupiterRawToken)
    (h : ∀ a ∈ st.tokenAccounts, ¬(0 < a.info.tokenAmount.uiAmount)) :
    (walletTokensHandler st addr il it svc).1 = [] ∧
    (walletTokensHandler st addr il it svc).2.totalMintsQueried = 0 ∧
    (walletTokensHandler st addr il it svc).2.successfulMetadataQueries = 0 := by
  have hmints : collectMints st.tokenAccounts = [] := by
    unfold collectMints
    rw [List.map_eq_nil_iff, List.filter_eq_nil_iff]
    intro a ha
    simpa using h a ha
  unfold walletTokensHandler
  rw [hmints]
  exact ⟨rfl, rfl, rfl⟩

/-- C9 witness: a wallet holding only a zero-balance token account issues no
query and reports zero metadata counts. -/
theorem c9_no_positive_no_query_witness :
    (walletTokensHandler stNoPositive "w" true true fun _ => []).1 = [] ∧
    (walletTokensHandler stNoPositive "w" true true fun _ => []).2.totalMintsQueried = 0 ∧
    (walletTokensHandler stNoPositive "w" true true
      fun _ => []).2.successfulMetadataQueries = 0 :=
  c9_no_positive_no_query stNoPositive "w" true true (fun _ => []) (by decide)

/-- C1 counterexample: a positive-balance holding whose mint "m" is absent
from the metadata lookup map is NOT dropped: it appears in the returned
tokens list, with symbol "UNKNOWN", verified false, source "fallback" (the
undefined `tokenInfo.symbol` access throws and the catch block keeps it). -/
theorem c1_absent_mint_kept_counterexample :
    0 < acctM.info.tokenAmount.uiAmount ∧
    mapGet (buildTokenInfoMap (jupMapRaw [])) "m" = none ∧
    (walletTokensHandler stOneHolding "w" true true fun _ => []).2.tokens.map
      (fun t => (t.mint, t.symbol, t.verified, t.source)) =
      [("m", "UNKNOWN", false, "fallback")] := by
  refine ⟨by decide, by decide, by decide⟩

/-- C1 (amended): for a positive-balance holding, a mint absent from the
metadata map raises during processing and the holding is kept as the
fallback entry (symbol "UNKNOWN", verified false); a mint present in the map
with a falsy usdPrice is dropped; a mint present with a truthy usdPrice is
kept with the map entry's verification and symbol. -/
theorem c1_join_case_analysis (infoMap : List (String × TokenInfo))
    (il it : Bool) (acc : TokenAccount)
    (hpos : 0 < acc.info.tokenAmount.uiAmount) :
    (mapGet infoMap acc.info.mint = none →
      processSplAccount infoMap il it acc = some (fallbackToken acc)) ∧
    (∀ info, mapGet infoMap acc.info.mint = some info →
      numTruthy info.usdPrice = false →
      processSplAccount infoMap il it acc = none) ∧
    (∀ info, mapGet infoMap acc.info.mint = some info →
      numTruthy info.usdPrice = true →
      ∃ t, processSplAccount infoMap il it acc = some t ∧
        t.verified = info.verified ∧ t.symbol = info.symbol ∧
        t.usdPrice = info.usdPrice) := by
  unfold processSplAccount
  rw [if_pos hpos]
  refine ⟨?_, ?_, ?_⟩
  · intro h
    rw [h]
  · intro info h hfalse
    rw [h]
    dsimp only
    rw [if_neg (by simp [hfalse])]
  · intro info h htrue
    rw [h]
    dsimp only
    rw [if_pos htrue]
    exact ⟨_, rfl, rfl, rfl, rfl⟩

/-- C1 witness: the fallback case applied to the concrete holding of mint
"m" against an empty metadata map. -/
theorem c1_join_case_analysis_witness :
    processSplAccount [] true true acctM = some (fallbackToken acctM) :=
  (c1_join_case_analysis [] true true acctM (by decide)).1 (by decide)

/-- C6: the native SOL entry is in the report iff the lamport balance is
strictly positive, and when present it is the first element of the tokens
list, equal to the fixed `nativeToken` entry (symbol "SOL", name "Solana",
fixed icon), regardless of the metadata service's answers. -/
theorem c6_native_first_iff_positive (st : WalletRpcState) (addr : String)
    (il it : Bool) (svc : SearchParams → List JupiterRawToken) :
    (((walletTokensHandler st addr il it svc).2.tokens.any
        fun t => t.isNative) = true ↔ 0 < st.solBalance) ∧
    (0 < st.solBalance →
      (walletTokensHandler st addr il it svc).2.tokens.head? =
        some (nativeToken st.solBalance addr)) := by
  unfold walletTokensHandler
  dsimp only
  by_cases h : 0 < st.solBalance
  · rw [if_pos ((solToUi_pos st.solBalance).mpr h)]
    constructor
    · simp only [List.cons_append, List.any_cons]
      simp [nativeToken, h]
    · intro _
      rfl
  · rw [if_neg (fun hpos => h ((solToUi_pos st.solBalance).mp hpos))]
    constructor
    · simp only [List.nil_append]
      constructor
      · intro hany
        exfalso
        rw [List.any_eq_true] at hany
        rcases hany with ⟨t, ht, hnat⟩
        rcases List.mem_filterMap.mp ht with ⟨a, _, hpa⟩
        have hfalse := processSplAccount_isNative_false _ il it a t hpa
        rw [hfalse] at hnat
        exact Bool.false_ne_true hnat
      · intro hpos
        exact absurd hpos h
    · intro hpos
      exact absurd hpos h

/-- C6 witness: a wallet with 2 SOL and no token accounts reports the fixed
native entry first. -/
theorem c6_native_first_iff_positive_witness :
    (walletTokensHandler stSolOnly "w" true true fun _ => []).2.tokens.head? =
      some (nativeToken 2000000000 "w") :=
  (c6_native_first_iff_positive stSolOnly "w" true true (fun _ => [])).2
    (by decide)

/-- C10: every record the metadata client's mapping produces has
verified = true, and every non-native entry of a wallet report is either a
verified jupiter-v2 entry or the unverified "UNKNOWN" fallback entry — the
unverified entries are exactly the fallback ones. -/
theorem c10_verified_partition (data : List JupiterRawToken)
    (st : WalletRpcState) (addr : String) (il it : Bool)
    (svc : SearchParams → List JupiterRawToken) :
    (∀ r ∈ jupMapRaw data, r.verified = true) ∧
    (∀ t ∈ (walletTokensHandler st addr il it svc).2.tokens,
      t.isNative = false →
        (t.verified = true ∧ t.source = "jupiter-v2") ∨
        (t.verified = false ∧ t.source = "fallback" ∧ t.symbol = "UNKNOWN")) := by
  constructor
  · intro r hr
    rcases List.mem_map.mp hr with ⟨tok, _, h⟩
    rw [← h]
  · intro t ht hnn
    unfold walletTokensHandler at ht
    dsimp only at ht
    rw [List.mem_append] at ht
    rcases ht with hnat | hspl
    · split at hnat
      · rw [List.mem_singleton] at hnat
        rw [hnat] at hnn
        exact absurd hnn (by simp [nativeToken])
      · exact absurd hnat (List.not_mem_nil t)
    · rcases List.mem_filterMap.mp hspl with ⟨a, _, hpa⟩
      exact processSplAccount_classify _ il it a t hpa

/-- C10 witness: the client mapping applied to one concrete upstream record
yields a verified record. -/
theorem c10_verified_partition_witness :
    ({ address := "a", symbol := "S", name := "N", decimals := 6,
       logoURI := some "https://icon", usdPrice := some 2,
       verified := true } : TokenMetadataRec).verified = true :=
  (c10_verified_partition [rawTokA] stOneHolding "w" true true
    (fun _ => [])).1 _ (by decide)

/-- C2 counterexample: a request body with `rpcUrl` absent and all other
fields valid is NOT rejected with a validation failure: the destructuring
default substitutes the mainnet URL, network calls are made, and the swap
succeeds. -/
theorem c2_missing_rpcUrl_counterexample :
    bodyNoRpc.rpcUrl = none ∧
    (jupswapHandler happyCollabs bodyNoRpc).1 ≠ [] ∧
    (jupswapHandler happyCollabs bodyNoRpc).2 =
      .success { swapSignature := "SIG", outAmount := "42", inputAmount := 1,
                 inputMint := "A", outputMint := "B",
                 priceImpactPct := "0.1" } := by
  refine ⟨rfl, by decide, by decide⟩

/-- C2 (amended): a body missing any of inputMint, inputAmount, outputMint
or signer is answered with the 400 missing-parameters error and no network
call; a missing rpcUrl instead receives the default mainnet URL and does not
by itself fail validation. -/
theorem c2_missing_required_field (c : SwapCollabs) (body : SwapBody)
    (h : body.inputMint = none ∨ body.inputAmount = none ∨
      body.outputMint = none ∨ body.signer = none) :
    jupswapHandler c body = ([], .badRequest "Missing required parameters") := by
  obtain ⟨im, ia, om, ru, sg⟩ := body
  dsimp only at h
  unfold jupswapHandler
  rcases h with h | h | h | h
  · subst h; rfl
  · subst h; cases im <;> rfl
  · subst h; cases im <;> cases ia <;> rfl
  · subst h; cases im <;> cases ia <;> cases om <;> rfl

/-- C2 witness: a concrete body with no inputMint is rejected with no
network calls. -/
theorem c2_missing_required_field_witness :
    jupswapHandler happyCollabs bodyNoInputMint =
      ([], .badRequest "Missing required parameters") :=
  c2_missing_required_field happyCollabs bodyNoInputMint (Or.inl rfl)

/-- C5: whenever the swap handler answers success, the reported outAmount
(and priceImpactPct) are exactly those of the quote the quote service
returned for the request's parameters — for every behaviour of the build,
sign, send and confirm collaborators. -/
theorem c5_outAmount_from_quote (c : SwapCollabs) (body : SwapBody)
    (sb : SwapSuccessBody)
    (h : (jupswapHandler c body).2 = .success sb) :
    ∃ q, c.quote sb.inputMint sb.outputMint sb.inputAmount 100 = .ok q ∧
      sb.outAmount = q.outAmount ∧ sb.priceImpactPct = q.priceImpactPct := by
  obtain ⟨im, ia, om, ru, sg⟩ := body
  unfold jupswapHandler at h
  cases im with
  | none => exact absurd h (by simp)
  | some a =>
  cases ia with
  | none => exact absurd h (by simp)
  | some b' =>
  cases om with
  | none => exact absurd h (by simp)
  | some c' =>
  cases sg with
  | none => exact absurd h (by simp)
  | some s =>
  dsimp only at h
  split at h
  · exact absurd h (by simp)
  · cases hn : jsNumber b' with
    | none => rw [hn] at h; exact absurd h (by simp)
    | some amt =>
      rw [hn] at h
      dsimp only at h
      split at h
      · exact absurd h (by simp)
      · cases hd : decodeSigner c s with
        | none => rw [hd] at h; exact absurd h (by simp)
        | some pk =>
          rw [hd] at h
          dsimp only at h
          cases hq : c.quote a c' amt 100 with
          | error e => rw [hq] at h; exact absurd h (by simp)
          | ok q =>
            rw [hq] at h
            dsimp only at h
            cases hb : c.build q pk with
            | error e => rw [hb] at h; exact absurd h (by simp)
            | ok tx64 =>
              rw [hb] at h
              dsimp only at h
              cases hdz : c.deserializeTx tx64 with
              | error e => rw [hdz] at h; exact absurd h (by simp)
              | ok tx =>
                rw [hdz] at h
                dsimp only at h
                cases hsend : c.send (c.signTx tx ((bs58Decode s).getD [])) with
                | error e => rw [hsend] at h; exact absurd h (by simp)
                | ok sig =>
                  rw [hsend] at h
                  dsimp only at h
                  cases hcf : c.confirmTx sig with
                  | error e => rw [hcf] at h; exact absurd h (by simp)
                  | ok u =>
                    rw [hcf] at h
                    dsimp only at h
                    injection h with h2
                    subst h2
                    exact ⟨q, hq, rfl, rfl⟩

/-- C5 witness: with all-success collaborators, the success body reports the
quote's outAmount "42" and priceImpactPct "0.1". -/
theorem c5_outAmount_from_quote_witness :
    ∃ q, happyCollabs.quote "A" "B" 1 100 = .ok q ∧
      "42" = q.outAmount ∧ "0.1" = q.priceImpactPct :=
  c5_outAmount_from_quote happyCollabs bodyFull
    { swapSignature := "SIG", outAmount := "42", inputAmount := 1,
      inputMint := "A", outputMint := "B", priceImpactPct := "0.1" }
    (by decide)

/-- C8: key material that is not valid base58, or whose decoding is not
exactly 64 bytes, is answered by `/validate-key` with status 400,
success false and an empty publicKey (never a 500), and by the swap handler
with a 400 validation error and no network call. -/
theorem c8_bad_key_material (f : List Nat → Option String) (c : SwapCollabs)
    (body : SwapBody) (s : String)
    (h : bs58Decode s = none ∨ ∃ b, bs58Decode s = some b ∧ b.length ≠ 64) :
    ((validateKeyHandler f (some s)).1 = 400 ∧
      (validateKeyHandler f (some s)).2.success = false ∧
      (validateKeyHandler f (some s)).2.publicKey = "") ∧
    (body.signer = some s →
      (jupswapHandler c body).1 = [] ∧
      ∃ msg, (jupswapHandler c body).2 = .badRequest msg) := by
  have hdec : decodeSigner c s = none := by
    unfold decodeSigner
    rcases h with hn | ⟨b, hb, hlen⟩
    · rw [hn]
      rfl
    · rw [hb]
      dsimp only [Option.bind]
      rw [if_neg hlen]
  constructor
  · unfold validateKeyHandler
    dsimp only
    by_cases hs : s = ""
    · rw [if_pos hs]
      exact ⟨rfl, rfl, rfl⟩
    · rw [if_neg hs]
      rcases h with hn | ⟨b, hb, hlen⟩
      · rw [hn]
        exact ⟨rfl, rfl, rfl⟩
      · rw [hb]
        dsimp only
        rw [if_pos hlen]
        exact ⟨rfl, rfl, rfl⟩
  · intro hsg
    obtain ⟨im, ia, om, ru, sg⟩ := body
    dsimp only at hsg
    subst hsg
    unfold jupswapHandler
    cases im with
    | none => exact ⟨rfl, "Missing required parameters", rfl⟩
    | some a =>
    cases ia with
    | none => exact ⟨rfl, "Missing required parameters", rfl⟩
    | some b' =>
    cases om with
    | none => exact ⟨rfl, "Missing required parameters", rfl⟩
    | some c' =>
    dsimp only
    by_cases hguard : a = "" ∨ b' = "" ∨ c' = "" ∨
        (match ru with | none => defaultRpcUrl | some r => r) = "" ∨ s = ""
    · rw [if_pos hguard]
      exact ⟨rfl, "Missing required parameters", rfl⟩
    · rw [if_neg hguard]
      cases hn : jsNumber b' with
      | none =>
        exact ⟨rfl, "Invalid inputAmount: must be a positive number", rfl⟩
      | some amt =>
        dsimp only
        by_cases hamt : amt ≤ 0
        · rw [if_pos hamt]
          exact ⟨rfl, "Invalid inputAmount: must be a positive number", rfl⟩
        · rw [if_neg hamt]
          rw [hdec]
          exact ⟨rfl, "Invalid signer private key format", rfl⟩

/-- C8 witness: the non-base58 string "0" is rejected by both handlers with
400 and no network call. -/
theorem c8_bad_key_material_witness :
    ((validateKeyHandler (fun _ => some "PK") (some "0")).1 = 400 ∧
      (validateKeyHandler (fun _ => some "PK") (some "0")).2.success = false ∧
      (validateKeyHandler (fun _ => some "PK") (some "0")).2.publicKey = "") ∧
    ((jupswapHandler happyCollabs bodyBadSigner).1 = [] ∧
      ∃ msg, (jupswapHandler happyCollabs bodyBadSigner).2 = .badRequest msg) :=
  ⟨(c8_bad_key_material (fun _ => some "PK") happyCollabs bodyBadSigner "0"
      (Or.inl (by decide))).1,
    (c8_bad_key_material (fun _ => some "PK") happyCollabs bodyBadSigner "0"
      (Or.inl (by decide))).2 rfl⟩
